import Mathlib

/-
Verification of the authentication core of the personal-website-backend
repository: the brute-force protector (internal/middleware brute_force),
the Argon2id password hasher (pkg/util password), the JWT secret manager
(internal/middleware jwt), and the auth orchestrator (internal/service
auth_service) together with the Telegram notifier message construction.

Strings and byte slices are modelled as lists of natural numbers (byte /
character codes); wall-clock time is modelled as natural-number seconds.
-/

/- Character-code strings: Go strings are byte sequences. -/
abbrev Str := List Nat

/-- Character codes of a Lean string literal, used to transcribe the Go
string literals appearing in the source. -/
def strCodes (s : String) : List Nat := s.data.map Char.toNat

namespace BruteForce

/- Configuration constants from the source file. -/
def maxFailedAttempts : Nat := 5
def initialBlockDuration : Nat := 30
def blockMultiplier : Nat := 2
def maxBlockDuration : Nat := 86400

/-- LoginAttempt record: tracks information about login attempts
(fields IP, Username, FailedAttempts, LastFailedAt, BlockedUntil;
the two time fields are seconds, with 0 as Go's zero time). -/
structure LoginAttempt where
  ip : Str
  username : Str
  failedAttempts : Nat
  lastFailedAt : Nat
  blockedUntil : Nat
deriving DecidableEq

/-- Protector state: the two maps of the Go BruteForceProtector,
`attempts` keyed by IP + ":" + username and `ipAttempts` keyed by IP. -/
structure ProtectorState where
  attempts : Str → Option LoginAttempt
  ipAttempts : Str → Option LoginAttempt

/-- The protector as first constructed: both maps empty. -/
def emptyState : ProtectorState := ⟨fun _ => none, fun _ => none⟩

/-- The account-scope map key `ip + ":" + username` (58 is the code of the
colon character). -/
def accountKey (ip username : Str) : Str := ip ++ 58 :: username

/-- IsBlocked: true with the blocking record's BlockedUntil if the
account-scope record or (failing that) the IP-scope record has
BlockedUntil strictly in the future; otherwise (false, zero time). -/
def IsBlocked (st : ProtectorState) (ip username : Str) (now : Nat) : Bool × Nat :=
  let ipPart : Bool × Nat :=
    match st.ipAttempts ip with
    | some a => if now < a.blockedUntil then (true, a.blockedUntil) else (false, 0)
    | none => (false, 0)
  match st.attempts (accountKey ip username) with
  | some a => if now < a.blockedUntil then (true, a.blockedUntil) else ipPart
  | none => ipPart

/-- The block computation at the tail of RecordFailedAttempt, shared by the
account branch (threshold 5, initial 30s) and the IP branch (threshold 10,
initial 60s).  At the point the source runs this, LastFailedAt has already
been set to `now`, so `a.blockedUntil - a.lastFailedAt` is the remaining
time of the current block. -/
def applyBlock (a : LoginAttempt) (threshold initialDur now : Nat) : LoginAttempt :=
  if threshold ≤ a.failedAttempts then
    let blockDuration :=
      if now < a.blockedUntil then
        let prevDuration := a.blockedUntil - a.lastFailedAt
        let d := prevDuration * blockMultiplier
        if maxBlockDuration < d then maxBlockDuration else d
      else initialDur
    { a with blockedUntil := now + blockDuration }
  else a

/-- RecordFailedAttempt: increments both scope records (creating them with
zeroed counters when absent), stamps LastFailedAt, and (re)computes the
block expiry for each scope whose threshold is met. -/
def RecordFailedAttempt (st : ProtectorState) (ip username : Str) (now : Nat) :
    ProtectorState :=
  let key := accountKey ip username
  let a0 := (st.attempts key).getD ⟨ip, username, 0, 0, 0⟩
  let a1 := { a0 with failedAttempts := a0.failedAttempts + 1, lastFailedAt := now }
  let i0 := (st.ipAttempts ip).getD ⟨ip, [], 0, 0, 0⟩
  let i1 := { i0 with failedAttempts := i0.failedAttempts + 1, lastFailedAt := now }
  let a2 := applyBlock a1 maxFailedAttempts initialBlockDuration now
  let i2 := applyBlock i1 (maxFailedAttempts * 2) (initialBlockDuration * 2) now
  { attempts := fun k => if k = key then some a2 else st.attempts k,
    ipAttempts := fun k => if k = ip then some i2 else st.ipAttempts k }

/-- RecordSuccessfulAttempt: deletes the account-scope entry for
`ip + ":" + username`; the IP-scope map is deliberately not touched. -/
def RecordSuccessfulAttempt (st : ProtectorState) (ip username : Str) :
    ProtectorState :=
  let key := accountKey ip username
  { attempts := fun k => if k = key then none else st.attempts k,
    ipAttempts := st.ipAttempts }

/-- A sequence of RecordFailedAttempt calls, each a triple
(ip, username, time). -/
def runFailures (st : ProtectorState) (calls : List (Str × Str × Nat)) :
    ProtectorState :=
  calls.foldl (fun s c => RecordFailedAttempt s c.1 c.2.1 c.2.2) st

/-- Failure count of the IP-scope record (0 when absent). -/
def ipCount (st : ProtectorState) (ip : Str) : Nat :=
  match st.ipAttempts ip with
  | some a => a.failedAttempts
  | none => 0

/-- BlockedUntil of the IP-scope record (0, the zero time, when absent). -/
def ipBlockedUntil (st : ProtectorState) (ip : Str) : Nat :=
  match st.ipAttempts ip with
  | some a => a.blockedUntil
  | none => 0

end BruteForce

namespace Hasher

/- Argon2 parameters fixed by the source (pkg/util password hashing). -/
def argon2Time : Nat := 1
def argon2Memory : Nat := 64 * 1024
def argon2Threads : Nat := 4
def argon2KeyLen : Nat := 32
def saltLen : Nat := 16

/-- Type of the Argon2id key-derivation function `argon2.IDKey` from the
external library golang.org/x/crypto/argon2 (arguments: password, salt,
time, memory, threads, keyLen).  The hasher is verified for every function
of this type whose output length equals its keyLen argument, which is the
documented contract of IDKey. -/
abbrev KDF := List Nat → List Nat → Nat → Nat → Nat → Nat → List Nat

/-- Encoding of one 6-bit group to its base64 standard-alphabet byte. -/
def b64encChar (n : Nat) : Nat :=
  if n < 26 then 65 + n
  else if n < 52 then 97 + (n - 26)
  else if n < 62 then 48 + (n - 52)
  else if n = 62 then 43 else 47

/-- Decoding of one base64 standard-alphabet byte to its 6-bit value. -/
def b64decChar (c : Nat) : Option Nat :=
  if 65 ≤ c ∧ c ≤ 90 then some (c - 65)
  else if 97 ≤ c ∧ c ≤ 122 then some (c - 97 + 26)
  else if 48 ≤ c ∧ c ≤ 57 then some (c - 48 + 52)
  else if c = 43 then some 62
  else if c = 47 then some 63
  else none

/-- base64.RawStdEncoding.EncodeToString: standard alphabet, no padding. -/
def b64encode : List Nat → List Nat
  | [] => []
  | [b1] => [b64encChar (b1 / 4), b64encChar (b1 % 4 * 16)]
  | [b1, b2] => [b64encChar (b1 / 4), b64encChar (b1 % 4 * 16 + b2 / 16),
      b64encChar (b2 % 16 * 4)]
  | b1 :: b2 :: b3 :: rest =>
    b64encChar (b1 / 4) :: b64encChar (b1 % 4 * 16 + b2 / 16) ::
    b64encChar (b2 % 16 * 4 + b3 / 64) :: b64encChar (b3 % 64) :: b64encode rest

/-- base64.RawStdEncoding.DecodeString: rejects bytes outside the alphabet
and inputs whose length is 1 modulo 4 (as Go's decoder does); does not
require trailing padding bits to be zero (Go's non-strict default). -/
def b64decode : List Nat → Option (List Nat)
  | [] => some []
  | [_] => none
  | [c1, c2] =>
    match b64decChar c1, b64decChar c2 with
    | some s1, some s2 => some [s1 * 4 + s2 / 16]
    | _, _ => none
  | [c1, c2, c3] =>
    match b64decChar c1, b64decChar c2, b64decChar c3 with
    | some s1, some s2, some s3 =>
      some [s1 * 4 + s2 / 16, s2 % 16 * 16 + s3 / 4]
    | _, _, _ => none
  | c1 :: c2 :: c3 :: c4 :: rest =>
    match b64decChar c1, b64decChar c2, b64decChar c3, b64decChar c4,
        b64decode rest with
    | some s1, some s2, some s3, some s4, some tail =>
      some ((s1 * 4 + s2 / 16) :: (s2 % 16 * 16 + s3 / 4) ::
        (s3 % 4 * 64 + s4) :: tail)
    | _, _, _, _, _ => none

/-- Decimal digit string of a natural number, fuel-indexed (fuel is an
upper bound on the number, so it never runs out). -/
def digitsAux : Nat → Nat → List Nat
  | 0, _ => []
  | fuel + 1, n =>
    if n < 10 then [48 + n] else digitsAux fuel (n / 10) ++ [48 + n % 10]

/-- The %d rendering of a natural number as its decimal digit codes. -/
def natDigits (n : Nat) : List Nat := digitsAux (n + 1) n

/-- Longest leading run of decimal digit codes and the remainder. -/
def takeDigits : List Nat → List Nat × List Nat
  | [] => ([], [])
  | c :: rest =>
    if 48 ≤ c ∧ c ≤ 57 then
      let p := takeDigits rest
      (c :: p.1, p.2)
    else ([], c :: rest)

/-- Value of a list of decimal digit codes. -/
def digitsToNat (ds : List Nat) : Nat :=
  ds.foldl (fun acc c => acc * 10 + (c - 48)) 0

/-- fmt.Sscanf %d for an unsigned target on space-free input: consumes a
nonempty run of decimal digits and returns the value and the remainder. -/
def parseNat (s : List Nat) : Option (Nat × List Nat) :=
  let p := takeDigits s
  if p.1 = [] then none else some (digitsToNat p.1, p.2)

/-- The next character, if any, is not a decimal digit. -/
def headNonDigit : List Nat → Prop
  | [] => True
  | c :: _ => ¬(48 ≤ c ∧ c ≤ 57)

/-- Matching of a literal format prefix: consumes `pat` from the front of
the input, failing on any mismatch. -/
def expect : List Nat → List Nat → Option (List Nat)
  | s, [] => some s
  | [], _ :: _ => none
  | c :: s, p :: ps => if c = p then expect s ps else none

/-- strings.Split(s, "$"): 36 is the code of the dollar character. -/
def splitOnDollar : List Nat → List (List Nat)
  | [] => [[]]
  | c :: rest =>
    let r := splitOnDollar rest
    if c = 36 then [] :: r
    else
      match r with
      | [] => [[c]]
      | h :: t => (c :: h) :: t

/-- Character codes of the literal "argon2id". -/
def argon2idTag : List Nat := strCodes "argon2id"

/-- Character codes of the literal "v=19". -/
def versionSegment : List Nat := [118, 61, 49, 57]

/-- The parameter segment "m=%d,t=%d,p=%d" rendered with the fixed
parameters of HashPassword. -/
def paramsSegment : List Nat :=
  [109, 61] ++ natDigits argon2Memory ++ [44, 116, 61] ++ natDigits argon2Time
    ++ [44, 112, 61] ++ natDigits argon2Threads

/-- HashPassword: derives the digest with the fixed parameters and returns
the encoded string "$argon2id$v=19$m=%d,t=%d,p=%d$salt$hash" with salt and
digest in unpadded base64.  The random 16-byte salt drawn inside the Go
function is passed explicitly here; the only error path in the source is a
failing random source, which the explicit salt replaces. -/
def HashPassword (idKey : KDF) (password salt : List Nat) : List Nat :=
  let hash := idKey password salt argon2Time argon2Memory argon2Threads argon2KeyLen
  36 :: (argon2idTag ++ 36 :: (versionSegment ++ 36 :: (paramsSegment
    ++ 36 :: (b64encode salt ++ 36 :: b64encode hash))))

/-- fmt.Sscanf %d for the signed int version field on space-free input: an
optional sign followed by a nonempty digit run. -/
def parseSscanfInt (s : List Nat) : Option (Int × List Nat) :=
  match s with
  | 43 :: rest => (parseNat rest).map fun p => ((p.1 : Int), p.2)
  | 45 :: rest => (parseNat rest).map fun p => (-(p.1 : Int), p.2)
  | _ => (parseNat s).map fun p => ((p.1 : Int), p.2)

/-- Parsing of the "v=%d" segment via Sscanf; trailing unconsumed input is
not an error, as with Go's Sscanf. -/
def parseVersion (s : List Nat) : Option Int :=
  match expect s [118, 61] with
  | none => none
  | some s1 =>
    match parseSscanfInt s1 with
    | none => none
    | some (v, _) => some v

/-- Parsing of the "m=%d,t=%d,p=%d" segment via Sscanf into uint32 memory,
uint32 time and uint8 threads; values out of range for the target type are
a scan error in Go and rejected here. -/
def parseParams (s : List Nat) : Option (Nat × Nat × Nat) :=
  match expect s [109, 61] with
  | none => none
  | some s1 =>
    match parseNat s1 with
    | none => none
    | some (m, s2) =>
      match expect s2 [44, 116, 61] with
      | none => none
      | some s3 =>
        match parseNat s3 with
        | none => none
        | some (t, s4) =>
          match expect s4 [44, 112, 61] with
          | none => none
          | some s5 =>
            match parseNat s5 with
            | none => none
            | some (p, _) =>
              if m < 2 ^ 32 ∧ t < 2 ^ 32 ∧ p < 2 ^ 8 then some (m, t, p) else none

/-- argon2Params of the source: memory, time, threads, keyLen. -/
structure Argon2Params where
  memory : Nat
  time : Nat
  threads : Nat
  keyLen : Nat
deriving DecidableEq

/-- The distinct error conditions reported by decodeHash, one per
errors.New site in the source. -/
inductive DecodeError where
  | invalidFormat
  | unsupportedAlgorithm
  | invalidVersion
  | unsupportedVersion
  | invalidParameters
  | invalidSaltEncoding
  | invalidHashEncoding
  | invalidKeyLength
deriving DecidableEq

/-- Body of decodeHash once the six segments are in hand: the checks in
source order (algorithm tag, version parse, version value, parameters,
salt base64, digest base64, digest length), with keyLen set from the
decoded digest length. -/
def decodeParts (p1 p2 p3 p4 p5 : List Nat) :
    Except DecodeError (Argon2Params × List Nat × List Nat) :=
  if p1 ≠ argon2idTag then .error .unsupportedAlgorithm
  else
    match parseVersion p2 with
    | none => .error .invalidVersion
    | some v =>
      if v ≠ 19 then .error .unsupportedVersion
      else
        match parseParams p3 with
        | none => .error .invalidParameters
        | some (m, t, p) =>
          match b64decode p4 with
          | none => .error .invalidSaltEncoding
          | some salt =>
            match b64decode p5 with
            | none => .error .invalidHashEncoding
            | some hash =>
              if hash.length = 0 then .error .invalidKeyLength
              else .ok (⟨m, t, p, hash.length⟩, salt, hash)

/-- decodeHash: splits on "$" and requires exactly 6 segments (the leading
empty segment is ignored, as in the source, which never inspects
parts[0]). -/
def decodeHash (encodedHash : List Nat) :
    Except DecodeError (Argon2Params × List Nat × List Nat) :=
  match splitOnDollar encodedHash with
  | [_p0, p1, p2, p3, p4, p5] => decodeParts p1 p2 p3 p4 p5
  | _ => .error .invalidFormat

/-- VerifyPassword: decodes the stored hash, re-derives the digest with the
decoded salt and parameters, and compares.  subtle.ConstantTimeCompare
returns 1 exactly when the two byte slices are equal (including length),
so it is modelled as list equality; constant-timedness itself is a
timing property outside the embedding. -/
def VerifyPassword (idKey : KDF) (password encodedHash : List Nat) :
    Except DecodeError Bool :=
  match decodeHash encodedHash with
  | .error e => .error e
  | .ok (params, salt, hash) =>
    let otherHash := idKey password salt params.time params.memory params.threads
      params.keyLen
    .ok (hash == otherHash)

/-- The spec's malformedness taxonomy for an encoded hash, stated as a
disjunction over the six split segments: wrong segment count, wrong
algorithm tag, unparsable version, unsupported version value, malformed
parameter block, invalid base64 salt or digest, zero-length digest. -/
def MalformedParts (p1 p2 p3 p4 p5 : List Nat) : Prop :=
  p1 ≠ argon2idTag ∨ parseVersion p2 = none
  ∨ (∃ v, parseVersion p2 = some v ∧ v ≠ 19)
  ∨ parseParams p3 = none ∨ b64decode p4 = none ∨ b64decode p5 = none
  ∨ (∃ hsh, b64decode p5 = some hsh ∧ hsh.length = 0)

/-- An encoded string is malformed when its segment count is not 6 or any
of the taxonomy conditions of MalformedParts holds. -/
def Malformed (enc : List Nat) : Prop :=
  match splitOnDollar enc with
  | [_p0, p1, p2, p3, p4, p5] => MalformedParts p1 p2 p3 p4 p5
  | _ => True

/-- A concrete well-formed encoded hash used as test data: parameters
m=8,t=1,p=1, salt [0] ("AA"), digest [1] ("AQ"). -/
def exampleHash : List Nat :=
  36 :: (argon2idTag ++ 36 :: ([118, 61, 49, 57] ++ 36 ::
    ([109, 61, 56, 44, 116, 61, 49, 44, 112, 61, 49] ++ 36 ::
      ([65, 65] ++ 36 :: [65, 81]))))

/-- A concrete key-derivation function used as test data: all-zero output
of the requested length. -/
def zeroKDF : KDF := fun _ _ _ _ _ k => List.replicate k 0

/-- A concrete key-derivation function used as test data: output depends on
every input and has the requested length. -/
def sumKDF : KDF := fun pw salt t m p k =>
  (List.range k).map fun i => (pw.sum + salt.sum + t + m + p + i) % 256

end Hasher

namespace JWT

/-- JWTClaims of the source: UserID, Username, IsAdmin plus the registered
claims ExpiresAt, IssuedAt, NotBefore (as seconds). -/
structure JWTClaims where
  userID : Str
  username : Str
  isAdmin : Bool
  expiresAt : Nat
  issuedAt : Nat
  notBefore : Nat
deriving DecidableEq

/-- A token signed with jwt.SigningMethodHS256.  HMAC-SHA256 is modelled as
an ideal MAC: a signed token determines its claims and the exact key used,
and a signature check against a key succeeds exactly when the keys are
equal (HMAC collisions across distinct 256-bit keys are assumed away). -/
structure SignedToken where
  claims : JWTClaims
  key : Str
deriving DecidableEq

/-- Verification failures of jwt.ParseWithClaims as used by the source. -/
inductive TokenError where
  | invalidSignature
  | expired
deriving DecidableEq

/-- The secret pair of the JWTManager: currentSecret and the nullable
previousSecret.  The lock-protected reads in the source are modelled by
passing the state by value. -/
structure ManagerState where
  currentSecret : Str
  previousSecret : Option Str
deriving DecidableEq

/-- config.Config fields consumed by the JWT and auth code. -/
structure Config where
  jwtSecret : Str
  jwtRefreshSecret : Str
  jwtExpiration : Nat
  jwtRefreshExpiration : Nat
deriving DecidableEq

/-- NewJWTManager: current secret from the config, no previous secret. -/
def newJWTManager (cfg : Config) : ManagerState := ⟨cfg.jwtSecret, none⟩

/-- rotateSecrets: the freshly generated random secret becomes current and
the old current moves into the previous slot. -/
def rotateSecrets (st : ManagerState) (newSecret : Str) : ManagerState :=
  { currentSecret := newSecret, previousSecret := some st.currentSecret }

/-- HMAC signing in the ideal-MAC model: the token records the key. -/
def signToken (secret : Str) (claims : JWTClaims) : SignedToken := ⟨claims, secret⟩

/-- JWTManager.GenerateToken: claims with ExpiresAt = now + JWTExpiration,
IssuedAt = NotBefore = now, signed with the current secret. -/
def GenerateToken (st : ManagerState) (cfg : Config) (userID username : Str)
    (isAdmin : Bool) (now : Nat) : SignedToken :=
  signToken st.currentSecret
    ⟨userID, username, isAdmin, now + cfg.jwtExpiration, now, now⟩

/-- JWTManager.GenerateRefreshToken: same claim shape with the longer
JWTRefreshExpiration, signed with the dedicated non-rotating
JWTRefreshSecret from the config. -/
def GenerateRefreshToken (cfg : Config) (userID username : Str)
    (isAdmin : Bool) (now : Nat) : SignedToken :=
  signToken cfg.jwtRefreshSecret
    ⟨userID, username, isAdmin, now + cfg.jwtRefreshExpiration, now, now⟩

/-- Registered-claims validity checked by jwt.ParseWithClaims: NotBefore
has passed and ExpiresAt has not. -/
def claimsValid (c : JWTClaims) (now : Nat) : Bool :=
  decide (c.notBefore ≤ now ∧ now ≤ c.expiresAt)

/-- jwt.ParseWithClaims against one HMAC secret: signature check in the
ideal-MAC model plus registered-claims validation. -/
def parseWithClaims (tok : SignedToken) (secret : Str) (now : Nat) :
    Except TokenError JWTClaims :=
  if tok.key = secret then
    if claimsValid tok.claims now then .ok tok.claims else .error .expired
  else .error .invalidSignature

/-- JWTManager.VerifyToken: tries the current secret first; on failure,
and only if a previous secret exists, retries against the previous secret;
reports the last error otherwise. -/
def VerifyToken (st : ManagerState) (tok : SignedToken) (now : Nat) :
    Except TokenError JWTClaims :=
  match parseWithClaims tok st.currentSecret now with
  | .ok c => .ok c
  | .error e1 =>
    match st.previousSecret with
    | some prev =>
      match parseWithClaims tok prev now with
      | .ok c => .ok c
      | .error e2 => .error e2
    | none => .error e1

end JWT

namespace Telegram

/- Literal segments of the two fmt.Sprintf formats in
internal/telegram/telegram.go, split at the %s verbs. -/
def failureHeader : Str := strCodes "❌ *FAILED LOGIN ATTEMPT*\n\n👤 *Username:* `"
def successHeader : Str := strCodes "✅ *SUCCESSFUL LOGIN*\n\n👤 *Username:* `"
def beforePassword : Str := strCodes "`\n🔑 *Password:* `"
def beforeIP : Str := strCodes "`\n🌐 *IP Address:* `"
def beforeUserAgent : Str := strCodes "`\n🖥 *User Agent:* `"
def beforeTime : Str := strCodes "`\n⏰ *Time:* `"
def beforeReason : Str := strCodes "`\n❓ *Reason:* `"
def successFooter : Str := strCodes "`\n\n🟢 User authenticated successfully!"
def failureFooter : Str := strCodes "`\n\n🔴 Authentication failed!"

/-- SendLoginSuccess: the message text built by the source, with the
formatted current time passed in as timeStr. -/
def SendLoginSuccess (username password ip userAgent timeStr : Str) : Str :=
  successHeader ++ username ++ beforePassword ++ password ++ beforeIP ++ ip
    ++ beforeUserAgent ++ userAgent ++ beforeTime ++ timeStr ++ successFooter

/-- SendLoginFailure: the message text built by the source, with the
formatted current time passed in as timeStr. -/
def SendLoginFailure (username password ip userAgent timeStr reason : Str) : Str :=
  failureHeader ++ username ++ beforePassword ++ password ++ beforeIP ++ ip
    ++ beforeUserAgent ++ userAgent ++ beforeTime ++ timeStr ++ beforeReason
    ++ reason ++ failureFooter

end Telegram

namespace Auth

/-- User fields consumed by Login (Password is the encoded hash string). -/
structure User where
  id : Str
  username : Str
  password : Str
  isAdmin : Bool
deriving DecidableEq

/-- The two error messages Login can return before token generation:
errors.New("invalid credentials") and errors.New("authentication error"). -/
inductive LoginError where
  | invalidCredentials
  | authenticationError
deriving DecidableEq

/-- One call to the Telegram service from Login: SendLoginSuccess when
success is true (reason empty), SendLoginFailure otherwise. -/
structure Notification where
  success : Bool
  username : Str
  password : Str
  ip : Str
  userAgent : Str
  reason : Str
deriving DecidableEq

/-- model.LoginResponse: access token, refresh token and the user. -/
structure LoginResponse where
  accessToken : JWT.SignedToken
  refreshToken : JWT.SignedToken
  user : User
deriving DecidableEq

/- The reason strings passed to SendLoginFailure by Login. -/
def reasonUserNotFound : Str := strCodes "User not found"
def reasonVerificationError : Str := strCodes "Password verification error"
def reasonInvalidPassword : Str := strCodes "Invalid password"

/-- middleware.GenerateToken (package-level): signs with cfg.JWTSecret. -/
def generateTokenCfg (cfg : JWT.Config) (userID username : Str) (isAdmin : Bool)
    (now : Nat) : JWT.SignedToken :=
  JWT.signToken cfg.jwtSecret
    ⟨userID, username, isAdmin, now + cfg.jwtExpiration, now, now⟩

/-- middleware.GenerateRefreshToken (package-level): signs with
cfg.JWTRefreshSecret. -/
def generateRefreshTokenCfg (cfg : JWT.Config) (userID username : Str)
    (isAdmin : Bool) (now : Nat) : JWT.SignedToken :=
  JWT.signToken cfg.jwtRefreshSecret
    ⟨userID, username, isAdmin, now + cfg.jwtRefreshExpiration, now, now⟩

/-- authService.Login: looks the user up (the repository is modelled as a
function from username to Option User, any lookup error folding to none),
verifies the password, and on success issues both tokens.  The returned
list collects the Telegram notifier calls the source makes on that path;
token signing, an HMAC over serializable claims, cannot fail in the
model. -/
def Login (idKey : Hasher.KDF) (getByUsername : Str → Option User)
    (cfg : JWT.Config) (username password ip userAgent : Str) (now : Nat) :
    Except LoginError LoginResponse × List Notification :=
  match getByUsername username with
  | none =>
    (.error .invalidCredentials,
      [⟨false, username, password, ip, userAgent, reasonUserNotFound⟩])
  | some user =>
    match Hasher.VerifyPassword idKey password user.password with
    | .error _ =>
      (.error .authenticationError,
        [⟨false, username, password, ip, userAgent, reasonVerificationError⟩])
    | .ok false =>
      (.error .invalidCredentials,
        [⟨false, username, password, ip, userAgent, reasonInvalidPassword⟩])
    | .ok true =>
      (.ok ⟨generateTokenCfg cfg user.id user.username user.isAdmin now,
          generateRefreshTokenCfg cfg user.id user.username user.isAdmin now,
          user⟩,
        [⟨true, username, password, ip, userAgent, []⟩])

/-- The Telegram message text produced for one notifier call. -/
def renderNotification (n : Notification) (timeStr : Str) : Str :=
  if n.success then
    Telegram.SendLoginSuccess n.username n.password n.ip n.userAgent timeStr
  else
    Telegram.SendLoginFailure n.username n.password n.ip n.userAgent timeStr n.reason

end Auth

namespace BruteForce

theorem ipCount_rf (st : ProtectorState) (ip id : Str) (now : Nat) :
    ipCount (RecordFailedAttempt st ip id now) ip = ipCount st ip + 1 := by
  cases hm : st.ipAttempts ip with
  | none =>
    simp [ipCount, RecordFailedAttempt, applyBlock, hm, maxFailedAttempts,
      initialBlockDuration, blockMultiplier, maxBlockDuration]
  | some a =>
    simp [ipCount, RecordFailedAttempt, applyBlock, hm, maxFailedAttempts,
      initialBlockDuration, blockMultiplier, maxBlockDuration]
    split <;> simp

theorem ipBlockedUntil_rf_small (st : ProtectorState) (ip id : Str) (now : Nat)
    (h : ipCount st ip + 1 < 10) (h0 : ipBlockedUntil st ip = 0) :
    ipBlockedUntil (RecordFailedAttempt st ip id now) ip = 0 := by
  cases hm : st.ipAttempts ip with
  | none =>
    simp [ipBlockedUntil, RecordFailedAttempt, applyBlock, hm,
      maxFailedAttempts, initialBlockDuration, blockMultiplier, maxBlockDuration]
  | some a =>
    simp [ipCount, hm] at h
    simp [ipBlockedUntil, hm] at h0
    simp [ipBlockedUntil, RecordFailedAttempt, applyBlock, hm,
      maxFailedAttempts, initialBlockDuration, blockMultiplier, maxBlockDuration]
    rw [if_neg (by omega)]
    exact h0

theorem ipBlockedUntil_rf_ten (st : ProtectorState) (ip id : Str) (now : Nat)
    (h : 10 ≤ ipCount st ip + 1) (h0 : ipBlockedUntil st ip = 0) :
    ipBlockedUntil (RecordFailedAttempt st ip id now) ip = now + 60 := by
  cases hm : st.ipAttempts ip with
  | none => simp [ipCount, hm] at h
  | some a =>
    simp [ipCount, hm] at h
    simp [ipBlockedUntil, hm] at h0
    simp [ipBlockedUntil, RecordFailedAttempt, applyBlock, hm,
      maxFailedAttempts, initialBlockDuration, blockMultiplier, maxBlockDuration]
    rw [if_pos (by omega), if_neg (by omega)]

theorem runFailures_ip_clean (ip : Str) (cs : List (Str × Nat)) (st : ProtectorState)
    (hc : ipCount st ip + cs.length ≤ 9) (h0 : ipBlockedUntil st ip = 0) :
    ipCount (runFailures st (cs.map fun p => (ip, p.1, p.2))) ip
        = ipCount st ip + cs.length
    ∧ ipBlockedUntil (runFailures st (cs.map fun p => (ip, p.1, p.2))) ip = 0 := by
  induction cs generalizing st with
  | nil => exact ⟨by simp [runFailures], by simpa [runFailures] using h0⟩
  | cons c cs ih =>
    have h1 := ipCount_rf st ip c.1 c.2
    have h2 := ipBlockedUntil_rf_small st ip c.1 c.2 (by simp at hc; omega) h0
    have h3 := ih (RecordFailedAttempt st ip c.1 c.2)
      (by simp at hc ⊢; omega) h2
    constructor
    · rw [show (runFailures st ((c :: cs).map fun p => (ip, p.1, p.2)))
          = runFailures (RecordFailedAttempt st ip c.1 c.2)
              (cs.map fun p => (ip, p.1, p.2)) by simp [runFailures]]
      rw [h3.1, h1]
      simp
      omega
    · rw [show (runFailures st ((c :: cs).map fun p => (ip, p.1, p.2)))
          = runFailures (RecordFailedAttempt st ip c.1 c.2)
              (cs.map fun p => (ip, p.1, p.2)) by simp [runFailures]]
      exact h3.2

/-- C1, claim as stated is false on the code: with 5 failures for
(ip "1", user "2") at time 0 the account record is blocked for 30s (until
30); a 6th failure at time 10 arrives while blocked, and the prior block's
length is 30s, so the claim predicts a new 60s block ending at 70 — but the
code doubles BlockedUntil - LastFailedAt with LastFailedAt already updated
to now, i.e. the remaining 20s, setting the block to end at 50, not 70. -/
theorem c1_counterexample :
    ((runFailures emptyState (List.replicate 5 ([49], [50], 0))).attempts
        (accountKey [49] [50])).map LoginAttempt.blockedUntil = some 30
    ∧ ((RecordFailedAttempt
          (runFailures emptyState (List.replicate 5 ([49], [50], 0)))
          [49] [50] 10).attempts
        (accountKey [49] [50])).map LoginAttempt.blockedUntil = some 50
    ∧ (50 : Nat) ≠ 10 + 2 * 30 := by decide

/-- C1 (amended): for every scope record (account or IP) that is already
blocked when a new failure is recorded and whose incremented failure count
meets its threshold (5 account / 10 IP), RecordFailedAttempt sets a new
block whose duration is double the REMAINING time of the prior block
(blocked_until - now, the failure timestamp having been updated to now
before the computation), capped at 24 hours (86400s). -/
theorem c1_block_doubles_remaining (st : ProtectorState) (ip id : Str)
    (now : Nat) (a ai : LoginAttempt)
    (ha : st.attempts (accountKey ip id) = some a)
    (hab : now < a.blockedUntil) (hac : 4 ≤ a.failedAttempts)
    (hi : st.ipAttempts ip = some ai)
    (hib : now < ai.blockedUntil) (hic : 9 ≤ ai.failedAttempts) :
    ((RecordFailedAttempt st ip id now).attempts (accountKey ip id)).map
        LoginAttempt.blockedUntil
      = some (now + min ((a.blockedUntil - now) * 2) 86400)
    ∧ ((RecordFailedAttempt st ip id now).ipAttempts ip).map
        LoginAttempt.blockedUntil
      = some (now + min ((ai.blockedUntil - now) * 2) 86400) := by
  simp [RecordFailedAttempt, applyBlock, ha, hi, maxFailedAttempts,
    initialBlockDuration, blockMultiplier, maxBlockDuration]
  constructor
  · rw [if_pos (by omega), if_pos hab]
    split <;> simp <;> omega
  · rw [if_pos (by omega), if_pos hib]
    split <;> simp <;> omega

/-- Witness for c1_block_doubles_remaining at a concrete blocked state:
account record blocked until 100 with 5 failures, IP record blocked until
200 with 10 failures, new failure at time 20. -/
theorem c1_block_doubles_remaining_witness :
    ((RecordFailedAttempt
        ⟨fun k => if k = accountKey [49] [50]
            then some ⟨[49], [50], 5, 0, 100⟩ else none,
          fun k => if k = [49] then some ⟨[49], [], 10, 0, 200⟩ else none⟩
        [49] [50] 20).attempts (accountKey [49] [50])).map
        LoginAttempt.blockedUntil
      = some (20 + min ((100 - 20) * 2) 86400)
    ∧ ((RecordFailedAttempt
        ⟨fun k => if k = accountKey [49] [50]
            then some ⟨[49], [50], 5, 0, 100⟩ else none,
          fun k => if k = [49] then some ⟨[49], [], 10, 0, 200⟩ else none⟩
        [49] [50] 20).ipAttempts [49]).map LoginAttempt.blockedUntil
      = some (20 + min ((200 - 20) * 2) 86400) :=
  c1_block_doubles_remaining _ [49] [50] 20 ⟨[49], [50], 5, 0, 100⟩
    ⟨[49], [], 10, 0, 200⟩ (by decide) (by decide) (by decide) (by decide)
    (by decide) (by decide)

/-- C3: starting from a clean protector, (i) after exactly 5 consecutive
RecordFailedAttempt calls for the same (ip, identifier), IsBlocked returns
true with retry-after exactly 30 seconds (blocked until t5 + 30); (ii) any
sequence of at most 9 failures from one IP (across arbitrary identifiers)
leaves the IP-scope record unblocked; and (iii) the 10th failure from that
IP sets an initial 60-second IP-scope block. -/
theorem c3_thresholds (ip id : Str) (t1 t2 t3 t4 t5 t : Nat)
    (cs cs9 : List (Str × Nat)) (hcs : cs.length ≤ 9) (h9 : cs9.length = 9) :
    IsBlocked (runFailures emptyState
        [(ip, id, t1), (ip, id, t2), (ip, id, t3), (ip, id, t4), (ip, id, t5)])
        ip id t5
      = (true, t5 + 30)
    ∧ ipBlockedUntil (runFailures emptyState
        (cs.map fun p => (ip, p.1, p.2))) ip = 0
    ∧ ipBlockedUntil (RecordFailedAttempt
        (runFailures emptyState (cs9.map fun p => (ip, p.1, p.2))) ip id t) ip
      = t + 60 := by
  refine ⟨?_, ?_, ?_⟩
  · simp [runFailures, RecordFailedAttempt, applyBlock, IsBlocked, emptyState,
      maxFailedAttempts, initialBlockDuration, blockMultiplier, maxBlockDuration]
  · exact (runFailures_ip_clean ip cs emptyState
      (by simp [ipCount, emptyState]; omega)
      (by simp [ipBlockedUntil, emptyState])).2
  · have h := runFailures_ip_clean ip cs9 emptyState
      (by simp [ipCount, emptyState]; omega)
      (by simp [ipBlockedUntil, emptyState])
    exact ipBlockedUntil_rf_ten _ ip id t
      (by rw [h.1]; simp [ipCount, emptyState, h9]) h.2

/-- Witness for c3_thresholds: ip "1", identifier "2", all five account
failures at time 0; one IP failure for conjunct (ii); nine IP failures at
time 0 for identifier "3", then the 10th at time 7 for conjunct (iii). -/
theorem c3_thresholds_witness :
    IsBlocked (runFailures emptyState
        [([49], [50], 0), ([49], [50], 0), ([49], [50], 0), ([49], [50], 0),
          ([49], [50], 0)]) [49] [50] 0
      = (true, 30)
    ∧ ipBlockedUntil (runFailures emptyState
        ((([([51], 0)] : List (Str × Nat))).map
          fun p => (([49] : Str), p.1, p.2))) [49] = 0
    ∧ ipBlockedUntil (RecordFailedAttempt
        (runFailures emptyState
          ((List.replicate 9 (([51] : Str), (0 : Nat))).map
            fun p => (([49] : Str), p.1, p.2))) [49] [50] 7) [49]
      = 7 + 60 :=
  c3_thresholds [49] [50] 0 0 0 0 0 7 [([51], 0)] (List.replicate 9 ([51], 0))
    (by decide) (by decide)

/-- C5, claim as stated is false on the code: the account map is keyed by
the concatenation ip + ":" + username, so the distinct pairs
(ip "a:b", user "c") and (ip "a", user "b:c") share the key "a:b:c"
(codes [97,58,98,58,99]); a success recorded for the second pair deletes
the record that tracks (and here blocks) the first pair. -/
theorem c5_counterexample :
    ((([97, 58, 98] : Str), ([99] : Str)) ≠ (([97] : Str), ([98, 58, 99] : Str)))
    ∧ (ProtectorState.mk
        (fun k => if k = accountKey [97, 58, 98] [99]
          then some ⟨[97, 58, 98], [99], 5, 0, 1000⟩ else none)
        (fun _ => none)).attempts (accountKey [97, 58, 98] [99])
        = some ⟨[97, 58, 98], [99], 5, 0, 1000⟩
    ∧ (RecordSuccessfulAttempt
        (ProtectorState.mk
          (fun k => if k = accountKey [97, 58, 98] [99]
            then some ⟨[97, 58, 98], [99], 5, 0, 1000⟩ else none)
          (fun _ => none))
        [97] [98, 58, 99]).attempts (accountKey [97, 58, 98] [99]) = none := by
  refine ⟨by decide, by decide, ?_⟩
  simp [RecordSuccessfulAttempt, accountKey]

/-- C5 (amended): RecordSuccessfulAttempt leaves the IP-scope map
untouched, removes the account-scope entry at the concatenated key
ip + ":" + identifier, and leaves every account-scope entry at any other
key unchanged; in particular, for the same ip, distinct identifiers always
yield distinct keys, so a success for (ip, "alice") never unblocks a
blocked (ip, "bob") — only colliding concatenations (an ip or identifier
containing a colon) can be affected. -/
theorem c5_success_clears_exact_key (st : ProtectorState) (ip id id2 k : Str)
    (h : id2 ≠ id) (hk : k ≠ accountKey ip id) :
    (RecordSuccessfulAttempt st ip id).ipAttempts = st.ipAttempts
    ∧ (RecordSuccessfulAttempt st ip id).attempts (accountKey ip id) = none
    ∧ (RecordSuccessfulAttempt st ip id).attempts (accountKey ip id2)
        = st.attempts (accountKey ip id2)
    ∧ (RecordSuccessfulAttempt st ip id).attempts k = st.attempts k := by
  refine ⟨rfl, by simp [RecordSuccessfulAttempt], ?_,
    by simp [RecordSuccessfulAttempt, hk]⟩
  have hne : accountKey ip id2 ≠ accountKey ip id := by
    simp [accountKey, h]
  simp [RecordSuccessfulAttempt, hne]

/-- Witness for c5_success_clears_exact_key: success for (ip "1", user "2")
with other identifier "3" and unrelated key "4". -/
theorem c5_success_clears_exact_key_witness :
    (RecordSuccessfulAttempt emptyState [49] [50]).ipAttempts
        = emptyState.ipAttempts
    ∧ (RecordSuccessfulAttempt emptyState [49] [50]).attempts
        (accountKey [49] [50]) = none
    ∧ (RecordSuccessfulAttempt emptyState [49] [50]).attempts
        (accountKey [49] [51]) = emptyState.attempts (accountKey [49] [51])
    ∧ (RecordSuccessfulAttempt emptyState [49] [50]).attempts [52]
        = emptyState.attempts [52] :=
  c5_success_clears_exact_key emptyState [49] [50] [51] [52]
    (by decide) (by decide)

end BruteForce

namespace Hasher

theorem b64decChar_encChar : ∀ n, n < 64 → b64decChar (b64encChar n) = some n := by
  decide

theorem b64encChar_ne_dollar (n : Nat) : b64encChar n ≠ 36 := by
  unfold b64encChar
  split_ifs <;> omega

theorem b64encode_no_dollar : ∀ bs : List Nat, ∀ c ∈ b64encode bs, c ≠ 36
  | [] => by simp [b64encode]
  | [b1] => by simp [b64encode, b64encChar_ne_dollar]
  | [b1, b2] => by simp [b64encode, b64encChar_ne_dollar]
  | b1 :: b2 :: b3 :: rest => by
    have ih := b64encode_no_dollar rest
    simp only [b64encode]
    intro c hc
    simp only [List.mem_cons] at hc
    rcases hc with h | h | h | h | h
    · exact h ▸ b64encChar_ne_dollar _
    · exact h ▸ b64encChar_ne_dollar _
    · exact h ▸ b64encChar_ne_dollar _
    · exact h ▸ b64encChar_ne_dollar _
    · exact ih c h

theorem b64_roundtrip : ∀ bs : List Nat, (∀ b ∈ bs, b < 256) →
    b64decode (b64encode bs) = some bs
  | [], _ => by simp [b64encode, b64decode]
  | [b1], h => by
    have hb1 : b1 < 256 := h b1 (by simp)
    have e1 := b64decChar_encChar (b1 / 4) (by omega)
    have e2 := b64decChar_encChar (b1 % 4 * 16) (by omega)
    simp only [b64encode, b64decode, e1, e2, Option.some.injEq, List.cons.injEq,
      and_true]
    omega
  | [b1, b2], h => by
    have hb1 : b1 < 256 := h b1 (by simp)
    have hb2 : b2 < 256 := h b2 (by simp)
    have e1 := b64decChar_encChar (b1 / 4) (by omega)
    have e2 := b64decChar_encChar (b1 % 4 * 16 + b2 / 16) (by omega)
    have e3 := b64decChar_encChar (b2 % 16 * 4) (by omega)
    simp only [b64encode, b64decode, e1, e2, e3, Option.some.injEq,
      List.cons.injEq, and_true]
    constructor <;> omega
  | b1 :: b2 :: b3 :: rest, h => by
    have hb1 : b1 < 256 := h b1 (by simp)
    have hb2 : b2 < 256 := h b2 (by simp)
    have hb3 : b3 < 256 := h b3 (by simp)
    have ih := b64_roundtrip rest (fun b hb => h b (by simp [hb]))
    have e1 := b64decChar_encChar (b1 / 4) (by omega)
    have e2 := b64decChar_encChar (b1 % 4 * 16 + b2 / 16) (by omega)
    have e3 := b64decChar_encChar (b2 % 16 * 4 + b3 / 64) (by omega)
    have e4 := b64decChar_encChar (b3 % 64) (by omega)
    simp only [b64encode, b64decode, e1, e2, e3, e4, ih, Option.some.injEq,
      List.cons.injEq, and_true]
    refine ⟨?_, ?_, ?_⟩ <;> omega

theorem digitsAux_digits : ∀ fuel n, ∀ c ∈ digitsAux fuel n, 48 ≤ c ∧ c ≤ 57 := by
  intro fuel
  induction fuel with
  | zero => simp [digitsAux]
  | succ fuel ih =>
    intro n c hc
    simp only [digitsAux] at hc
    by_cases hn : n < 10
    · rw [if_pos hn] at hc
      simp only [List.mem_singleton] at hc
      omega
    · rw [if_neg hn] at hc
      simp only [List.mem_append, List.mem_singleton] at hc
      rcases hc with hc | hc
      · exact ih _ c hc
      · omega

theorem digitsAux_ne_nil (fuel n : Nat) (h : 0 < fuel) : digitsAux fuel n ≠ [] := by
  cases fuel with
  | zero => omega
  | succ fuel =>
    simp only [digitsAux]
    split <;> simp

theorem digitsToNat_append_single (ds : List Nat) (c : Nat) :
    digitsToNat (ds ++ [c]) = digitsToNat ds * 10 + (c - 48) := by
  simp [digitsToNat, List.foldl_append]

theorem digitsAux_toNat : ∀ fuel n, n < fuel →
    digitsToNat (digitsAux fuel n) = n := by
  intro fuel
  induction fuel with
  | zero => omega
  | succ fuel ih =>
    intro n h
    simp only [digitsAux]
    split
    · simp [digitsToNat]
    · rw [digitsToNat_append_single, ih (n / 10) (by omega)]
      omega

theorem natDigits_digits (n : Nat) : ∀ c ∈ natDigits n, 48 ≤ c ∧ c ≤ 57 :=
  digitsAux_digits (n + 1) n

theorem natDigits_toNat (n : Nat) : digitsToNat (natDigits n) = n :=
  digitsAux_toNat (n + 1) n (by omega)

theorem takeDigits_append (ds rest : List Nat)
    (hds : ∀ c ∈ ds, 48 ≤ c ∧ c ≤ 57) (hrest : headNonDigit rest) :
    takeDigits (ds ++ rest) = (ds, rest) := by
  induction ds with
  | nil =>
    cases rest with
    | nil => rfl
    | cons c rs =>
      simp only [headNonDigit] at hrest
      simp [takeDigits, hrest]
  | cons c ds ih =>
    have hc := hds c (by simp)
    simp only [List.cons_append, takeDigits, hc, and_self, if_pos, List.append_eq]
    rw [ih (fun d hd => hds d (by simp [hd]))]

theorem parseNat_natDigits (n : Nat) (rest : List Nat)
    (hrest : headNonDigit rest) :
    parseNat (natDigits n ++ rest) = some (n, rest) := by
  unfold parseNat
  rw [takeDigits_append _ _ (natDigits_digits n) hrest]
  have hne : natDigits n ≠ [] := digitsAux_ne_nil _ _ (by omega)
  simp [hne, natDigits_toNat]

theorem expect_append (pat rest : List Nat) :
    expect (pat ++ rest) pat = some rest := by
  induction pat with
  | nil => simp [expect]
  | cons p ps ih => simp [expect, ih]

theorem splitOnDollar_no_dollar (s : List Nat) (h : ∀ c ∈ s, c ≠ 36) :
    splitOnDollar s = [s] := by
  induction s with
  | nil => rfl
  | cons c rest ih =>
    have hc : c ≠ 36 := h c (by simp)
    simp only [splitOnDollar, hc, if_neg, ite_false]
    rw [ih (fun d hd => h d (by simp [hd]))]

theorem splitOnDollar_dollar (s : List Nat) :
    splitOnDollar (36 :: s) = [] :: splitOnDollar s := by
  simp [splitOnDollar]

theorem splitOnDollar_append (xs ys : List Nat) (h : ∀ c ∈ xs, c ≠ 36) :
    splitOnDollar (xs ++ 36 :: ys) = xs :: splitOnDollar ys := by
  induction xs with
  | nil => simp [splitOnDollar_dollar]
  | cons c rest ih =>
    have hc : c ≠ 36 := h c (by simp)
    simp only [List.cons_append, splitOnDollar, hc, if_neg, ite_false,
      List.append_eq]
    rw [ih (fun d hd => h d (by simp [hd]))]

theorem decodeHash_parts (enc p0 p1 p2 p3 p4 p5 : List Nat)
    (h : splitOnDollar enc = [p0, p1, p2, p3, p4, p5]) :
    decodeHash enc = decodeParts p1 p2 p3 p4 p5 := by
  unfold decodeHash
  rw [h]

theorem hashPassword_split (idKey : KDF) (password salt : List Nat) :
    splitOnDollar (HashPassword idKey password salt)
      = [[], argon2idTag, versionSegment, paramsSegment, b64encode salt,
          b64encode (idKey password salt argon2Time argon2Memory argon2Threads
            argon2KeyLen)] := by
  unfold HashPassword
  rw [splitOnDollar_dollar,
    splitOnDollar_append _ _ (by decide),
    splitOnDollar_append _ _ (by decide),
    splitOnDollar_append _ _ (by decide),
    splitOnDollar_append _ _ (b64encode_no_dollar salt),
    splitOnDollar_no_dollar _ (b64encode_no_dollar _)]

/-- C6: for every key-derivation function whose output length honours its
keyLen argument, every password and every salt byte string (in particular
the 16 random bytes HashPassword draws), VerifyPassword accepts the hash
HashPassword produced for that password: the digest re-derived from the
salt and parameters embedded in the encoded string equals the stored
digest. -/
theorem c6_verify_hash_roundtrip (idKey : KDF)
    (hlen : ∀ pw salt t m p k, (idKey pw salt t m p k).length = k)
    (password salt : List Nat) (hsalt : ∀ b ∈ salt, b < 256)
    (hdig : ∀ b ∈ idKey password salt argon2Time argon2Memory argon2Threads
      argon2KeyLen, b < 256) :
    VerifyPassword idKey password (HashPassword idKey password salt)
      = .ok true := by
  have hdec : decodeHash (HashPassword idKey password salt)
      = .ok (⟨argon2Memory, argon2Time, argon2Threads, argon2KeyLen⟩, salt,
          idKey password salt argon2Time argon2Memory argon2Threads
            argon2KeyLen) := by
    rw [decodeHash_parts _ _ _ _ _ _ _ (hashPassword_split idKey password salt)]
    unfold decodeParts
    rw [show parseVersion versionSegment = some 19 by decide,
      show parseParams paramsSegment
          = some (argon2Memory, argon2Time, argon2Threads) by decide,
      b64_roundtrip salt hsalt, b64_roundtrip _ hdig]
    simp [hlen, argon2KeyLen]
  unfold VerifyPassword
  rw [hdec]
  simp

/-- Witness for c6_verify_hash_roundtrip: the concrete KDF sumKDF,
password [1], salt [7]. -/
theorem c6_verify_hash_roundtrip_witness :
    VerifyPassword sumKDF [1] (HashPassword sumKDF [1] [7]) = .ok true :=
  c6_verify_hash_roundtrip sumKDF (by intro pw salt t m p k; simp [sumKDF])
    [1] [7] (by decide) (by decide)

theorem decodeParts_error_iff (p1 p2 p3 p4 p5 : List Nat) :
    (∃ e, decodeParts p1 p2 p3 p4 p5 = .error e)
      ↔ MalformedParts p1 p2 p3 p4 p5 := by
  by_cases h1 : p1 = argon2idTag
  · cases hv : parseVersion p2 with
    | none => simp [decodeParts, MalformedParts, h1, hv]
    | some v =>
      by_cases h19 : v = 19
      · cases hpp : parseParams p3 with
        | none => simp [decodeParts, MalformedParts, h1, hv, h19, hpp]
        | some mtp =>
          obtain ⟨m, t, p⟩ := mtp
          cases hs4 : b64decode p4 with
          | none => simp [decodeParts, MalformedParts, h1, hv, h19, hpp, hs4]
          | some salt =>
            cases hs5 : b64decode p5 with
            | none =>
              simp [decodeParts, MalformedParts, h1, hv, h19, hpp, hs4, hs5]
            | some hsh =>
              by_cases hl : hsh.length = 0
              · simp [decodeParts, MalformedParts, h1, hv, h19, hpp, hs4, hs5,
                  hl, ← List.length_eq_zero]
              · simp [decodeParts, MalformedParts, h1, hv, h19, hpp, hs4, hs5,
                  hl, ← List.length_eq_zero]
      · simp [decodeParts, MalformedParts, h1, hv, h19]
  · simp [decodeParts, MalformedParts, h1]

theorem verify_error_iff (idKey : KDF) (password enc : List Nat) :
    (∃ e, VerifyPassword idKey password enc = .error e) ↔ Malformed enc := by
  unfold VerifyPassword decodeHash Malformed
  rcases hsp : splitOnDollar enc with _ | ⟨p0, _ | ⟨p1, _ | ⟨p2, _ | ⟨p3, _ |
    ⟨p4, _ | ⟨p5, _ | ⟨p6, l⟩⟩⟩⟩⟩⟩⟩ <;>
    try simp
  rw [← decodeParts_error_iff p1 p2 p3 p4 p5]
  cases hd : decodeParts p1 p2 p3 p4 p5 with
  | error e => simp [hd]
  | ok r => simp [hd]

/-- C7: for every well-formed encoded hash (one the decoder accepts) whose
stored digest differs from the digest re-derived with the candidate
password, VerifyPassword returns false with no error; and VerifyPassword
returns an error exactly on the malformed strings of the spec's taxonomy
(wrong segment count, wrong algorithm tag, unparsable or unsupported
version, malformed parameters, invalid base64 salt or digest, zero-length
digest). -/
theorem c7_mismatch_false_error_iff_malformed (idKey : KDF)
    (password enc enc2 : List Nat) (params : Argon2Params)
    (salt hash : List Nat)
    (hdec : decodeHash enc = .ok (params, salt, hash))
    (hmis : idKey password salt params.time params.memory params.threads
      params.keyLen ≠ hash) :
    VerifyPassword idKey password enc = .ok false
    ∧ ((∃ e, VerifyPassword idKey password enc2 = .error e) ↔ Malformed enc2) := by
  refine ⟨?_, verify_error_iff idKey password enc2⟩
  unfold VerifyPassword
  rw [hdec]
  simpa using fun h => (hmis h.symm).elim

/-- Witness for c7_mismatch_false_error_iff_malformed: zeroKDF with
password [2] against exampleHash (stored digest [1], derived digest [0]),
and the empty string as the malformed probe. -/
theorem c7_mismatch_false_error_iff_malformed_witness :
    VerifyPassword zeroKDF [2] exampleHash = .ok false
    ∧ ((∃ e, VerifyPassword zeroKDF [2] [] = .error e) ↔ Malformed []) :=
  c7_mismatch_false_error_iff_malformed zeroKDF [2] exampleHash []
    ⟨8, 1, 1, 1⟩ [0] [1] rfl (by decide)

/-- C8: for every input whose dollar-delimited segment count is not exactly
6 (for example 5 or 7 segments), decodeHash reports the invalid-format
decode error.  Totality — the absence of panics on arbitrary input — holds
by construction: decodeHash and every parser it calls are total functions
defined by structural recursion. -/
theorem c8_wrong_segment_count (enc : List Nat)
    (h : (splitOnDollar enc).length ≠ 6) :
    decodeHash enc = .error DecodeError.invalidFormat := by
  unfold decodeHash
  rcases hsp : splitOnDollar enc with _ | ⟨p0, _ | ⟨p1, _ | ⟨p2, _ | ⟨p3, _ |
    ⟨p4, _ | ⟨p5, _ | ⟨p6, l⟩⟩⟩⟩⟩⟩⟩ <;> first
    | rfl
    | (exfalso; apply h; rw [hsp]; rfl)

/-- Witness for c8_wrong_segment_count: "$a$b$c$d" splits into 5 segments
and is rejected with the invalid-format error. -/
theorem c8_wrong_segment_count_witness :
    decodeHash [36, 97, 36, 98, 36, 99, 36, 100]
      = .error DecodeError.invalidFormat :=
  c8_wrong_segment_count [36, 97, 36, 98, 36, 99, 36, 100] (by decide)

end Hasher

namespace JWT

/-- C2: a token signed with the current secret immediately before a
rotation still verifies after that rotation — VerifyToken fails against
the new current secret and succeeds against the retained previous secret —
and fails once a second rotation has replaced the previous secret, the
fresh random secrets being distinct from the token's key. -/
theorem c2_rotation_grace (st : ManagerState) (cfg : Config)
    (uid uname : Str) (isAdmin : Bool) (now t : Nat) (n1 n2 : Str)
    (h1 : n1 ≠ st.currentSecret) (h2 : n2 ≠ st.currentSecret)
    (hnb : now ≤ t) (hexp : t ≤ now + cfg.jwtExpiration) :
    VerifyToken (rotateSecrets st n1)
        (GenerateToken st cfg uid uname isAdmin now) t
      = .ok (GenerateToken st cfg uid uname isAdmin now).claims
    ∧ (∃ e, VerifyToken (rotateSecrets (rotateSecrets st n1) n2)
        (GenerateToken st cfg uid uname isAdmin now) t = .error e) := by
  constructor
  · simp [VerifyToken, rotateSecrets, GenerateToken, signToken, parseWithClaims,
      Ne.symm h1, claimsValid, hnb, hexp]
  · refine ⟨.invalidSignature, ?_⟩
    simp [VerifyToken, rotateSecrets, GenerateToken, signToken, parseWithClaims,
      Ne.symm h1, Ne.symm h2, claimsValid, hnb, hexp]

/-- Witness for c2_rotation_grace: initial secret [1], rotations install
[5] then [6]; the token is issued at time 0 with a 100-second expiry and
checked at time 50. -/
theorem c2_rotation_grace_witness :
    VerifyToken (rotateSecrets ⟨[1], none⟩ [5])
        (GenerateToken ⟨[1], none⟩ ⟨[1], [2], 100, 1000⟩ [3] [4] true 0) 50
      = .ok (GenerateToken ⟨[1], none⟩ ⟨[1], [2], 100, 1000⟩ [3] [4] true 0).claims
    ∧ (∃ e, VerifyToken (rotateSecrets (rotateSecrets ⟨[1], none⟩ [5]) [6])
        (GenerateToken ⟨[1], none⟩ ⟨[1], [2], 100, 1000⟩ [3] [4] true 0) 50
        = .error e) :=
  c2_rotation_grace ⟨[1], none⟩ ⟨[1], [2], 100, 1000⟩ [3] [4] true 0 50 [5] [6]
    (by decide) (by decide) (by decide) (by decide)

/-- C10: VerifyToken consults only the current and previous access
secrets, so a token from GenerateRefreshToken — signed with the dedicated
refresh secret — is rejected whenever that refresh secret differs from the
current secret and from the previous secret (when one exists): refresh
tokens cannot pass where access tokens are required. -/
theorem c10_refresh_token_rejected (st : ManagerState) (cfg : Config)
    (uid uname : Str) (isAdmin : Bool) (now t : Nat)
    (h1 : cfg.jwtRefreshSecret ≠ st.currentSecret)
    (h2 : ∀ p, st.previousSecret = some p → cfg.jwtRefreshSecret ≠ p) :
    ∃ e, VerifyToken st (GenerateRefreshToken cfg uid uname isAdmin now) t
      = .error e := by
  unfold VerifyToken GenerateRefreshToken signToken parseWithClaims
  simp only [h1, if_false, ite_false, if_neg]
  cases hp : st.previousSecret with
  | none => exact ⟨.invalidSignature, rfl⟩
  | some p =>
    have := h2 p hp
    simp [this]

/-- Witness for c10_refresh_token_rejected: current secret [1], previous
secret [2], refresh secret [9]. -/
theorem c10_refresh_token_rejected_witness :
    ∃ e, VerifyToken ⟨[1], some [2]⟩
        (GenerateRefreshToken ⟨[1], [9], 10, 20⟩ [3] [4] true 0) 5 = .error e :=
  c10_refresh_token_rejected ⟨[1], some [2]⟩ ⟨[1], [9], 10, 20⟩ [3] [4] true 0 5
    (by decide)
    (fun p hp => by
      have h := Option.some.inj hp
      subst h
      decide)

end JWT

namespace Auth

/-- C4: Login folds a user-store miss and a cleanly-false password
verification into the same generic invalid-credentials outcome, while a
hash-decode error surfaces as the distinct authentication-error outcome. -/
theorem c4_login_error_taxonomy (idKey : Hasher.KDF)
    (gbu1 gbu2 gbu3 : Str → Option User) (cfg : JWT.Config)
    (u1 p1 ip1 ua1 u2 p2 ip2 ua2 u3 p3 ip3 ua3 : Str)
    (now1 now2 now3 : Nat) (user2 user3 : User) (e : Hasher.DecodeError)
    (h1 : gbu1 u1 = none)
    (h2 : gbu2 u2 = some user2)
    (h2v : Hasher.VerifyPassword idKey p2 user2.password = .ok false)
    (h3 : gbu3 u3 = some user3)
    (h3v : Hasher.VerifyPassword idKey p3 user3.password = .error e) :
    (Login idKey gbu1 cfg u1 p1 ip1 ua1 now1).1 = .error .invalidCredentials
    ∧ (Login idKey gbu2 cfg u2 p2 ip2 ua2 now2).1 = .error .invalidCredentials
    ∧ (Login idKey gbu3 cfg u3 p3 ip3 ua3 now3).1 = .error .authenticationError
    ∧ LoginError.authenticationError ≠ LoginError.invalidCredentials := by
  refine ⟨?_, ?_, ?_, by simp⟩
  · simp [Login, h1]
  · simp [Login, h2, h2v]
  · simp [Login, h3, h3v]

/-- Witness for c4_login_error_taxonomy: an empty store for the not-found
case, a user whose stored hash is exampleHash (digest mismatch under
zeroKDF) for the wrong-password case, and a user whose stored hash is the
empty string (undecodable) for the decode-error case. -/
theorem c4_login_error_taxonomy_witness :
    (Login Hasher.zeroKDF (fun _ => none) ⟨[1], [2], 10, 20⟩
        [3] [4] [5] [6] 0).1 = .error .invalidCredentials
    ∧ (Login Hasher.zeroKDF (fun _ => some ⟨[1], [2], Hasher.exampleHash, false⟩)
        ⟨[1], [2], 10, 20⟩ [2] [2] [5] [6] 0).1 = .error .invalidCredentials
    ∧ (Login Hasher.zeroKDF (fun _ => some ⟨[1], [2], [], false⟩)
        ⟨[1], [2], 10, 20⟩ [2] [2] [5] [6] 0).1 = .error .authenticationError
    ∧ LoginError.authenticationError ≠ LoginError.invalidCredentials :=
  c4_login_error_taxonomy Hasher.zeroKDF (fun _ => none)
    (fun _ => some ⟨[1], [2], Hasher.exampleHash, false⟩)
    (fun _ => some ⟨[1], [2], [], false⟩) ⟨[1], [2], 10, 20⟩
    [3] [4] [5] [6] [2] [2] [5] [6] [2] [2] [5] [6] 0 0 0
    ⟨[1], [2], Hasher.exampleHash, false⟩ ⟨[1], [2], [], false⟩
    .invalidFormat rfl rfl rfl rfl rfl

/-- C9: every Login call, successful or failed, makes exactly one notifier
call whose password field is the caller's plaintext password, and that
password appears verbatim inside the rendered Telegram message text; two
Login calls that differ only in the submitted password produce different
rendered notifier payloads even when the user does not exist. -/
theorem c9_password_in_notification (idKey : Hasher.KDF)
    (gbu : Str → Option User) (cfg : JWT.Config)
    (u p ip ua : Str) (now : Nat) (tstr : Str)
    (u2 pw1 pw2 ip2 ua2 : Str) (now2 : Nat)
    (hne : pw1 ≠ pw2) (hnf : gbu u2 = none) :
    (∃ n, (Login idKey gbu cfg u p ip ua now).2 = [n] ∧ n.password = p
      ∧ ∃ pre post, renderNotification n tstr = pre ++ p ++ post)
    ∧ (Login idKey gbu cfg u2 pw1 ip2 ua2 now2).2.map
        (fun n => renderNotification n tstr)
      ≠ (Login idKey gbu cfg u2 pw2 ip2 ua2 now2).2.map
        (fun n => renderNotification n tstr) := by
  constructor
  · cases hu : gbu u with
    | none =>
      refine ⟨⟨false, u, p, ip, ua, reasonUserNotFound⟩,
        by simp [Login, hu], rfl, ?_⟩
      refine ⟨Telegram.failureHeader ++ u ++ Telegram.beforePassword,
        Telegram.beforeIP ++ ip ++ Telegram.beforeUserAgent ++ ua
          ++ Telegram.beforeTime ++ tstr ++ Telegram.beforeReason
          ++ reasonUserNotFound ++ Telegram.failureFooter, ?_⟩
      simp [renderNotification, Telegram.SendLoginFailure, List.append_assoc]
    | some user =>
      cases hv : Hasher.VerifyPassword idKey p user.password with
      | error e =>
        refine ⟨⟨false, u, p, ip, ua, reasonVerificationError⟩,
          by simp [Login, hu, hv], rfl, ?_⟩
        refine ⟨Telegram.failureHeader ++ u ++ Telegram.beforePassword,
          Telegram.beforeIP ++ ip ++ Telegram.beforeUserAgent ++ ua
            ++ Telegram.beforeTime ++ tstr ++ Telegram.beforeReason
            ++ reasonVerificationError ++ Telegram.failureFooter, ?_⟩
        simp [renderNotification, Telegram.SendLoginFailure, List.append_assoc]
      | ok b =>
        cases b with
        | false =>
          refine ⟨⟨false, u, p, ip, ua, reasonInvalidPassword⟩,
            by simp [Login, hu, hv], rfl, ?_⟩
          refine ⟨Telegram.failureHeader ++ u ++ Telegram.beforePassword,
            Telegram.beforeIP ++ ip ++ Telegram.beforeUserAgent ++ ua
              ++ Telegram.beforeTime ++ tstr ++ Telegram.beforeReason
              ++ reasonInvalidPassword ++ Telegram.failureFooter, ?_⟩
          simp [renderNotification, Telegram.SendLoginFailure, List.append_assoc]
        | true =>
          refine ⟨⟨true, u, p, ip, ua, []⟩, by simp [Login, hu, hv], rfl, ?_⟩
          refine ⟨Telegram.successHeader ++ u ++ Telegram.beforePassword,
            Telegram.beforeIP ++ ip ++ Telegram.beforeUserAgent ++ ua
              ++ Telegram.beforeTime ++ tstr ++ Telegram.successFooter, ?_⟩
          simp [renderNotification, Telegram.SendLoginSuccess, List.append_assoc]
  · intro hcontra
    simp only [Login, hnf, List.map_cons, List.map_nil, List.cons.injEq,
      and_true] at hcontra
    simp [renderNotification, Telegram.SendLoginFailure, List.append_assoc,
      List.append_cancel_left_eq, List.append_cancel_right_eq, hne] at hcontra

/-- Witness for c9_password_in_notification: an empty user store, password
[4] for the first conjunct, and passwords [7] versus [8] for the
distinct-payload conjunct. -/
theorem c9_password_in_notification_witness :
    (∃ n, (Login Hasher.zeroKDF (fun _ => none) ⟨[1], [2], 10, 20⟩
        [3] [4] [5] [6] 0).2 = [n] ∧ n.password = [4]
      ∧ ∃ pre post, renderNotification n [55] = pre ++ [4] ++ post)
    ∧ (Login Hasher.zeroKDF (fun _ => none) ⟨[1], [2], 10, 20⟩
        [3] [7] [5] [6] 0).2.map (fun n => renderNotification n [55])
      ≠ (Login Hasher.zeroKDF (fun _ => none) ⟨[1], [2], 10, 20⟩
        [3] [8] [5] [6] 0).2.map (fun n => renderNotification n [55]) :=
  c9_password_in_notification Hasher.zeroKDF (fun _ => none) ⟨[1], [2], 10, 20⟩
    [3] [4] [5] [6] 0 [55] [3] [7] [8] [5] [6] 0 (by decide) rfl

end Auth
